import Mathlib

/-!
Shallow embedding of the `sgxwasm` crate (shelvenzhou/wasmi-sgx):

* `src/enclave/sgxwasm/src/lib.rs` — the boundary-value marshalling layer
  (`BoundaryValue`, `runtime_value_to_boundary_value`,
  `boundary_value_to_runtime_value`, `result_covert`) and the command
  protocol (`SgxWasmAction`);
* `src/enclave/sgxwasm/src/drivers/spec_driver.rs` — the "spectest" host
  environment (`SpecModule`) and the module registry / two-level import
  resolver (`SpecDriver`).

Machine integers are embedded as `Int` (for the signed `i32`/`i64`
payloads) and `Nat` (for the unsigned `u32`/`u64`/`u128` bit patterns);
every operation modelled here passes the payloads through unchanged, so no
overflow arithmetic arises.  Rust float bit casts (`f32::from_bits`,
`f32::to_bits`, and wasmi's nan-preserving `F32::from`/`F32::to_bits`)
are plain transmutes that neither inspect nor normalise the bit pattern,
so a float value is embedded as its raw IEEE-754 bit pattern and the
casts compose to the identity on that pattern.
-/

/-- wasmi `ValueType`: the type tag of a wasm value. -/
inductive ValueType where
  | I32
  | I64
  | F32
  | F64
  deriving DecidableEq

/-- wasmi's native `RuntimeValue`.  The `F32`/`F64` payloads are the raw
IEEE-754 bit patterns: wasmi's nan-preserving float wrappers store exactly
the `u32`/`u64` bits of the float. -/
inductive RuntimeValue where
  | I32 : Int → RuntimeValue
  | I64 : Int → RuntimeValue
  | F32 : Nat → RuntimeValue
  | F64 : Nat → RuntimeValue
  deriving DecidableEq

/-- `BoundaryValue` from `lib.rs`: the serialization-safe tagged value that
crosses the enclave boundary.  `F32`/`F64` carry `u32`/`u64` bit patterns;
`V128` carries a `u128` payload that is never converted to a native value. -/
inductive BoundaryValue where
  | I32 : Int → BoundaryValue
  | I64 : Int → BoundaryValue
  | F32 : Nat → BoundaryValue
  | F64 : Nat → BoundaryValue
  | V128 : Nat → BoundaryValue
  deriving DecidableEq

/-- `SgxWasmAction` from `lib.rs`: the closed command protocol a harness can
issue.  Raw module bytes are embedded as `List Nat` (each entry a `u8`). -/
inductive SgxWasmAction where
  | Invoke : Option String → String → List BoundaryValue → SgxWasmAction
  | Get : Option String → String → SgxWasmAction
  | LoadModule : Option String → List Nat → SgxWasmAction
  | TryLoad : List Nat → SgxWasmAction
  | Register : Option String → String → SgxWasmAction

/-- `runtime_value_to_boundary_value` from `lib.rs`: `I32`/`I64` pass
through; `F32`/`F64` are sent to their raw bit patterns (`rv.to_bits()`,
the identity on the stored pattern in this embedding). -/
def runtime_value_to_boundary_value (rv : RuntimeValue) : BoundaryValue :=
  match rv with
  | RuntimeValue.I32 rv => BoundaryValue.I32 rv
  | RuntimeValue.I64 rv => BoundaryValue.I64 rv
  | RuntimeValue.F32 rv => BoundaryValue.F32 rv
  | RuntimeValue.F64 rv => BoundaryValue.F64 rv

/-- `boundary_value_to_runtime_value` from `lib.rs`: `I32`/`I64` pass
through; `F32`/`F64` are reconstructed from their bit patterns
(`f32::from_bits(bv).into()`, the identity on the pattern).  The `V128`
arm of the Rust function is `panic!("Not supported yet!")` — a fatal,
non-recoverable abort — embedded here as `none`; every non-panicking arm
yields `some`. -/
def boundary_value_to_runtime_value (rv : BoundaryValue) : Option RuntimeValue :=
  match rv with
  | BoundaryValue.I32 bv => some (RuntimeValue.I32 bv)
  | BoundaryValue.I64 bv => some (RuntimeValue.I64 bv)
  | BoundaryValue.F32 bv => some (RuntimeValue.F32 bv)
  | BoundaryValue.F64 bv => some (RuntimeValue.F64 bv)
  | BoundaryValue.V128 _ => none

/-- `wasmi::Error`, re-exported by the crate as `InterpreterError`.  Only
`Instantiation` is ever constructed by the crate's own code; the remaining
wasmi variants are kept so that "is an `Instantiation` error" is a real
distinction, with their payloads abstracted to strings. -/
inductive InterpreterError where
  | Validation : String → InterpreterError
  | Instantiation : String → InterpreterError
  | Function : String → InterpreterError
  | Table : String → InterpreterError
  | Memory : String → InterpreterError
  | Global : String → InterpreterError
  | Value : String → InterpreterError
  | Trap : String → InterpreterError
  | Host : String → InterpreterError
  deriving DecidableEq

/-- `result_covert` from `lib.rs`: converts an interpreter call result into
an optional boundary value, propagating the error unchanged. -/
def result_covert (res : Except InterpreterError (Option RuntimeValue)) :
    Except InterpreterError (Option BoundaryValue) :=
  match res with
  | Except.ok none => Except.ok none
  | Except.ok (some rv) => Except.ok (some (runtime_value_to_boundary_value rv))
  | Except.error x => Except.error x

/-- wasmi `Signature`: parameter types and an optional return type
(`return_type()` is `Option<ValueType>`; `none` is the unit return). -/
structure Signature where
  params : List ValueType
  return_type : Option ValueType
  deriving DecidableEq

/-- wasmi `GlobalDescriptor`: the import-site description of a global. -/
structure GlobalDescriptor where
  value_type : ValueType
  mutable : Bool
  deriving DecidableEq

/-- wasmi `MemoryDescriptor`: initial/maximum size in pages. -/
structure MemoryDescriptor where
  initial : Nat
  maximum : Option Nat
  deriving DecidableEq

/-- wasmi `TableDescriptor`: initial/maximum element capacity. -/
structure TableDescriptor where
  initial : Nat
  maximum : Option Nat
  deriving DecidableEq

/-- wasmi `ModuleRef`: a reference-counted handle to an instantiated module.
Cloning an `Rc` shares the underlying instance, so a handle is embedded as
the identity of the instance it points to; two handles refer to the same
module instance exactly when they are equal. -/
abbrev ModuleRef : Type := Nat

/-- A wasmi `FuncRef` as this crate can observe it: either a fresh host
function produced by `FuncInstance::alloc_host(signature, host_index)`, or
a function exported by some instantiated module (opaque to this crate). -/
inductive FuncRef where
  | host : Signature → Nat → FuncRef
  | exported : ModuleRef → String → FuncRef
  deriving DecidableEq

/-- A wasmi `TableRef`: a shared handle to one allocated table instance.
`id` is the identity of the allocation (the `Rc` pointer); `initial` and
`maximum` are the arguments of `TableInstance::alloc`. -/
structure TableRef where
  id : Nat
  initial : Nat
  maximum : Option Nat
  deriving DecidableEq

/-- A wasmi `MemoryRef`: a shared handle to one allocated linear memory.
`initial` and `maximum` are in 64 KiB pages (`MemoryInstance::alloc`). -/
structure MemoryRef where
  id : Nat
  initial : Nat
  maximum : Option Nat
  deriving DecidableEq

/-- A wasmi `GlobalRef`: a shared handle to one allocated global cell,
holding its current value and mutability (`GlobalInstance::alloc`). -/
structure GlobalRef where
  id : Nat
  value : RuntimeValue
  mutable : Bool
  deriving DecidableEq

/-- The IEEE-754 single-precision bit pattern of the Rust literal
`666.0f32` (sign 0, exponent 9 + 127 = 136, mantissa `0100110100…0`). -/
def f32_bits_666 : Nat := 0x44268000

/-- The IEEE-754 double-precision bit pattern of the Rust literal
`666.0f64` (sign 0, exponent 9 + 1023 = 1032, mantissa `0100110100…0`). -/
def f64_bits_666 : Nat := 0x4084D00000000000

/-- `SpecModule` from `spec_driver.rs`: the "spectest" host environment's
state — one table, one linear memory, and three global cells. -/
structure SpecModule where
  table : TableRef
  memory : MemoryRef
  global_i32 : GlobalRef
  global_f32 : GlobalRef
  global_f64 : GlobalRef

/-- `SpecModule::new`: allocates the five host instances once.  The ids
0–4 record that the five allocations are distinct instances.  The two
`alloc(..).unwrap()` calls succeed (initial ≤ maximum in both).
`RuntimeValue::F32(666.0.into())` stores the bit pattern of `666.0`. -/
def SpecModule.new : SpecModule where
  table := { id := 0, initial := 10, maximum := some 20 }
  memory := { id := 1, initial := 1, maximum := some 2 }
  global_i32 := { id := 2, value := RuntimeValue.I32 666, mutable := false }
  global_f32 := { id := 3, value := RuntimeValue.F32 f32_bits_666, mutable := false }
  global_f64 := { id := 4, value := RuntimeValue.F64 f64_bits_666, mutable := false }

/-- `PRINT_FUNC_INDEX` from `spec_driver.rs`. -/
def PRINT_FUNC_INDEX : Nat := 0

/-- The six field names `SpecModule::resolve_func` maps to
`PRINT_FUNC_INDEX` (the arms of its `match field_name`). -/
def print_fields : List String :=
  ["print", "print_i32", "print_i32_f32", "print_f64_f64", "print_f32", "print_f64"]

/-- `SpecModule::resolve_func`: the six print field names resolve to a
fresh host function at `PRINT_FUNC_INDEX`; any other field name fails
first with an `Instantiation` error naming the field; a recognised field
whose requested signature has a non-unit return type fails with an
`Instantiation` error. -/
def SpecModule.resolve_func (_self : SpecModule) (field_name : String)
    (func_type : Signature) : Except InterpreterError FuncRef :=
  if field_name ∈ print_fields then
    if func_type.return_type.isSome then
      Except.error (InterpreterError.Instantiation
        "Function `print_` have unit return type")
    else
      Except.ok (FuncRef.host func_type PRINT_FUNC_INDEX)
  else
    Except.error (InterpreterError.Instantiation
      ("Unknown host func import " ++ field_name))

/-- `SpecModule::resolve_global`: returns a clone of the stored global
handle (sharing the instance) for the three recognised names. -/
def SpecModule.resolve_global (self : SpecModule) (field_name : String)
    (_global_type : GlobalDescriptor) : Except InterpreterError GlobalRef :=
  match field_name with
  | "global_i32" => Except.ok self.global_i32
  | "global_f32" => Except.ok self.global_f32
  | "global_f64" => Except.ok self.global_f64
  | _ => Except.error (InterpreterError.Instantiation
      ("Unknown host global import " ++ field_name))

/-- `SpecModule::resolve_memory`: returns a clone of the stored memory
handle for the field name `memory`. -/
def SpecModule.resolve_memory (self : SpecModule) (field_name : String)
    (_memory_type : MemoryDescriptor) : Except InterpreterError MemoryRef :=
  if field_name = "memory" then
    Except.ok self.memory
  else
    Except.error (InterpreterError.Instantiation
      ("Unknown host memory import " ++ field_name))

/-- `SpecModule::resolve_table`: returns a clone of the stored table
handle for the field name `table`. -/
def SpecModule.resolve_table (self : SpecModule) (field_name : String)
    (_table_type : TableDescriptor) : Except InterpreterError TableRef :=
  if field_name = "table" then
    Except.ok self.table
  else
    Except.error (InterpreterError.Instantiation
      ("Unknown host table import " ++ field_name))

/-- `SpecDriver` from `spec_driver.rs`: the host environment plus the
module registry.  The `HashMap<String, ModuleRef>` of named instances is
embedded as a finite-support map `String → Option ModuleRef` (keys are
unique by construction; `insert` overwrites). -/
structure SpecDriver where
  spec_module : SpecModule
  instances : String → Option ModuleRef
  last_module : Option ModuleRef

/-- `SpecDriver::new`: fresh host environment, empty registry, no
last-loaded module. -/
def SpecDriver.new : SpecDriver where
  spec_module := SpecModule.new
  instances := fun _ => none
  last_module := none

/-- `SpecDriver::add_module`: stores the handle as `last_module`
unconditionally; if a name is given, also inserts it into the registry
(`HashMap::insert`, overwriting any prior entry of the same name). -/
def SpecDriver.add_module (self : SpecDriver) (name : Option String)
    (module : ModuleRef) : SpecDriver :=
  let self := { self with last_module := some module }
  match name with
  | some name =>
      { self with instances := fun k => if k = name then some module else self.instances k }
  | none => self

/-- `SpecDriver::module` (`lookup` in the spec): the handle registered
under the exact name, or an `Instantiation` error naming the module. -/
def SpecDriver.module (self : SpecDriver) (name : String) :
    Except InterpreterError ModuleRef :=
  match self.instances name with
  | some module => Except.ok module
  | none => Except.error (InterpreterError.Instantiation
      ("Module not registered " ++ name))

/-- `SpecDriver::module_or_last` (`lookup_or_last` in the spec): with a
name, exactly `module`; without one, the `last_module` slot or an
`Instantiation` error if it was never set. -/
def SpecDriver.module_or_last (self : SpecDriver) (name : Option String) :
    Except InterpreterError ModuleRef :=
  match name with
  | some name => self.module name
  | none =>
      match self.last_module with
      | some module => Except.ok module
      | none => Except.error (InterpreterError.Instantiation "No modules registered")

/-- `SpecDriver::register`: resolves the source via `module_or_last`; on
success stores the handle under `as_name` through `add_module`; on failure
returns a generic `Instantiation` error, discarding the underlying one.
The Rust method mutates `&mut self` and returns `Result<(), _>`; it is
embedded state-passing style as the updated driver paired with the
result — on the error path `add_module` was never reached, so the driver
comes back unchanged. -/
def SpecDriver.register (self : SpecDriver) (name : Option String)
    (as_name : String) : SpecDriver × Except InterpreterError Unit :=
  match self.module_or_last name with
  | Except.ok module => (self.add_module (some as_name) module, Except.ok ())
  | Except.error _ =>
      (self, Except.error (InterpreterError.Instantiation "No such modules registered"))

/-- The export-resolution interface of an instantiated wasmi module
(`ModuleInstance::resolve_func` and friends).  That code lives in the
wasmi dependency, outside this crate, so it is kept abstract: theorems
about `SpecDriver`'s import resolution quantify over it. -/
structure ModuleExports where
  resolve_func : ModuleRef → String → Signature → Except InterpreterError FuncRef
  resolve_global : ModuleRef → String → GlobalDescriptor → Except InterpreterError GlobalRef
  resolve_memory : ModuleRef → String → MemoryDescriptor → Except InterpreterError MemoryRef
  resolve_table : ModuleRef → String → TableDescriptor → Except InterpreterError TableRef

/-- `<SpecDriver as ImportResolver>::resolve_func`: the reserved module
name `spectest` goes to the host environment; any other module name is
looked up (`self.module(module_name)?`, propagating the lookup error) and
the query delegated to that module's own export resolution `ext`. -/
def SpecDriver.resolve_func (self : SpecDriver) (ext : ModuleExports)
    (module_name field_name : String) (func_type : Signature) :
    Except InterpreterError FuncRef :=
  if module_name = "spectest" then
    self.spec_module.resolve_func field_name func_type
  else
    match self.module module_name with
    | Except.ok m => ext.resolve_func m field_name func_type
    | Except.error e => Except.error e

/-- `<SpecDriver as ImportResolver>::resolve_global`: same two-level
dispatch as `resolve_func`. -/
def SpecDriver.resolve_global (self : SpecDriver) (ext : ModuleExports)
    (module_name field_name : String) (global_type : GlobalDescriptor) :
    Except InterpreterError GlobalRef :=
  if module_name = "spectest" then
    self.spec_module.resolve_global field_name global_type
  else
    match self.module module_name with
    | Except.ok m => ext.resolve_global m field_name global_type
    | Except.error e => Except.error e

/-- `<SpecDriver as ImportResolver>::resolve_memory`: same two-level
dispatch as `resolve_func`. -/
def SpecDriver.resolve_memory (self : SpecDriver) (ext : ModuleExports)
    (module_name field_name : String) (memory_type : MemoryDescriptor) :
    Except InterpreterError MemoryRef :=
  if module_name = "spectest" then
    self.spec_module.resolve_memory field_name memory_type
  else
    match self.module module_name with
    | Except.ok m => ext.resolve_memory m field_name memory_type
    | Except.error e => Except.error e

/-- `<SpecDriver as ImportResolver>::resolve_table`: same two-level
dispatch as `resolve_func`. -/
def SpecDriver.resolve_table (self : SpecDriver) (ext : ModuleExports)
    (module_name field_name : String) (table_type : TableDescriptor) :
    Except InterpreterError TableRef :=
  if module_name = "spectest" then
    self.spec_module.resolve_table field_name table_type
  else
    match self.module module_name with
    | Except.ok m => ext.resolve_table m field_name table_type
    | Except.error e => Except.error e

/-- Claim C2: converting a native runtime value of any kind (I32, I64,
F32, F64) to a boundary value and back yields the value bit-for-bit:
I32/I64 payloads pass through unchanged, and F32/F64 payloads travel as
their raw bit patterns, so NaN payloads and signed zero are preserved. -/
theorem runtime_boundary_round_trip :
    ∀ v : RuntimeValue,
      boundary_value_to_runtime_value (runtime_value_to_boundary_value v) = some v := by
  intro v
  cases v <;> rfl

/-- Claim C8: `boundary_value_to_runtime_value` returns a native value for
every I32/I64/F32/F64 boundary value (I32/I64 pass through, F32/F64 are
rebuilt from their bit patterns) and hits the fatal `panic!` arm —
embedded as `none` — for every V128 boundary value. -/
theorem boundary_to_runtime_totality :
    (∀ n : Int, boundary_value_to_runtime_value (BoundaryValue.I32 n) =
      some (RuntimeValue.I32 n)) ∧
    (∀ n : Int, boundary_value_to_runtime_value (BoundaryValue.I64 n) =
      some (RuntimeValue.I64 n)) ∧
    (∀ b : Nat, boundary_value_to_runtime_value (BoundaryValue.F32 b) =
      some (RuntimeValue.F32 b)) ∧
    (∀ b : Nat, boundary_value_to_runtime_value (BoundaryValue.F64 b) =
      some (RuntimeValue.F64 b)) ∧
    (∀ b : Nat, boundary_value_to_runtime_value (BoundaryValue.V128 b) = none) := by
  refine ⟨?_, ?_, ?_, ?_, ?_⟩ <;> intro x <;> rfl

/-- Claim C10: for every boundary value of kind I32, I64, F32 or F64
(every variant except V128), converting to the native representation and
back yields the same boundary value, with the exact F32/F64 bit pattern. -/
theorem boundary_runtime_round_trip :
    (∀ n : Int, (boundary_value_to_runtime_value (BoundaryValue.I32 n)).map
      runtime_value_to_boundary_value = some (BoundaryValue.I32 n)) ∧
    (∀ n : Int, (boundary_value_to_runtime_value (BoundaryValue.I64 n)).map
      runtime_value_to_boundary_value = some (BoundaryValue.I64 n)) ∧
    (∀ b : Nat, (boundary_value_to_runtime_value (BoundaryValue.F32 b)).map
      runtime_value_to_boundary_value = some (BoundaryValue.F32 b)) ∧
    (∀ b : Nat, (boundary_value_to_runtime_value (BoundaryValue.F64 b)).map
      runtime_value_to_boundary_value = some (BoundaryValue.F64 b)) := by
  refine ⟨?_, ?_, ?_, ?_⟩ <;> intro x <;> rfl

/-- Claim C9: `SpecModule::new` allocates a table with initial capacity 10
and maximum 20, a memory with initial size 1 page and maximum 2 pages, and
three immutable globals — a 32-bit integer, a 32-bit float, and a 64-bit
float — each initialised to 666 (the floats holding the bit pattern of
`666.0`); and every recognised `resolve_global` / `resolve_memory` /
`resolve_table` call returns the stored handle itself (the same shared
instance, never a copy). -/
theorem specModule_new_allocations :
    SpecModule.new.table.initial = 10 ∧
    SpecModule.new.table.maximum = some 20 ∧
    SpecModule.new.memory.initial = 1 ∧
    SpecModule.new.memory.maximum = some 2 ∧
    SpecModule.new.global_i32.value = RuntimeValue.I32 666 ∧
    SpecModule.new.global_i32.mutable = false ∧
    SpecModule.new.global_f32.value = RuntimeValue.F32 f32_bits_666 ∧
    SpecModule.new.global_f32.mutable = false ∧
    SpecModule.new.global_f64.value = RuntimeValue.F64 f64_bits_666 ∧
    SpecModule.new.global_f64.mutable = false ∧
    (∀ (m : SpecModule) (d : GlobalDescriptor),
        m.resolve_global "global_i32" d = Except.ok m.global_i32) ∧
    (∀ (m : SpecModule) (d : GlobalDescriptor),
        m.resolve_global "global_f32" d = Except.ok m.global_f32) ∧
    (∀ (m : SpecModule) (d : GlobalDescriptor),
        m.resolve_global "global_f64" d = Except.ok m.global_f64) ∧
    (∀ (m : SpecModule) (d : MemoryDescriptor),
        m.resolve_memory "memory" d = Except.ok m.memory) ∧
    (∀ (m : SpecModule) (d : TableDescriptor),
        m.resolve_table "table" d = Except.ok m.table) := by
  refine ⟨rfl, rfl, rfl, rfl, rfl, rfl, rfl, rfl, rfl, rfl, ?_, ?_, ?_, ?_, ?_⟩ <;>
    intro m d <;> rfl

/-- Claim C3: `SpecModule::resolve_func` succeeds exactly for the six
print field names, all mapped to host-function index 0, provided the
requested signature has a unit (empty) return type; any other field name
fails with an `Instantiation` error naming the unknown field; a recognised
field name with a non-unit return type fails with an `Instantiation`
error. -/
theorem specModule_resolve_func_characterisation :
    PRINT_FUNC_INDEX = 0 ∧
    (∀ (m : SpecModule) (field : String) (sig : Signature),
        field ∈ print_fields → sig.return_type = none →
        m.resolve_func field sig = Except.ok (FuncRef.host sig PRINT_FUNC_INDEX)) ∧
    (∀ (m : SpecModule) (field : String) (sig : Signature),
        field ∈ print_fields → sig.return_type ≠ none →
        m.resolve_func field sig = Except.error (InterpreterError.Instantiation
          "Function `print_` have unit return type")) ∧
    (∀ (m : SpecModule) (field : String) (sig : Signature),
        field ∉ print_fields →
        m.resolve_func field sig = Except.error (InterpreterError.Instantiation
          ("Unknown host func import " ++ field))) := by
  refine ⟨rfl, ?_, ?_, ?_⟩
  · intro m field sig hmem hret
    simp [SpecModule.resolve_func, hmem, hret]
  · intro m field sig hmem hret
    have h : sig.return_type.isSome := Option.ne_none_iff_isSome.mp hret
    simp [SpecModule.resolve_func, hmem, h]
  · intro m field sig hmem
    simp [SpecModule.resolve_func, hmem]

/-- Concrete instances of claim C3: `print_i32` with an i32 argument and
unit return resolves to host index 0; the same field with an i32 return
type is rejected; the unknown field `nope` is rejected with its name in
the message. -/
theorem specModule_resolve_func_characterisation_witness :
    SpecModule.new.resolve_func "print_i32"
        { params := [ValueType.I32], return_type := none } =
      Except.ok (FuncRef.host { params := [ValueType.I32], return_type := none }
        PRINT_FUNC_INDEX) ∧
    SpecModule.new.resolve_func "print_i32"
        { params := [ValueType.I32], return_type := some ValueType.I32 } =
      Except.error (InterpreterError.Instantiation
        "Function `print_` have unit return type") ∧
    SpecModule.new.resolve_func "nope" { params := [], return_type := none } =
      Except.error (InterpreterError.Instantiation
        ("Unknown host func import " ++ "nope")) := by
  refine ⟨?_, ?_, ?_⟩
  · exact specModule_resolve_func_characterisation.2.1 SpecModule.new "print_i32" _
      (by decide) rfl
  · exact specModule_resolve_func_characterisation.2.2.1 SpecModule.new "print_i32" _
      (by decide) (by simp)
  · exact specModule_resolve_func_characterisation.2.2.2 SpecModule.new "nope" _
      (by decide)

/-- A concrete export-resolution instance standing in for the wasmi side,
used to instantiate theorems that quantify over `ModuleExports`. -/
def sampleExports : ModuleExports where
  resolve_func := fun m f _ => Except.ok (FuncRef.exported m f)
  resolve_global := fun _ f _ => Except.error (InterpreterError.Global f)
  resolve_memory := fun _ f _ => Except.error (InterpreterError.Memory f)
  resolve_table := fun _ f _ => Except.error (InterpreterError.Table f)

/-- Claim C1: each of the four `SpecDriver` import-resolution queries
answers `spectest` queries through the host environment's corresponding
resolver; for any other module name it looks the module up in the
registry — propagating the `Instantiation` lookup error when the name is
absent — and delegates the field to that module's own export
resolution. -/
theorem specDriver_import_resolution :
    (∀ (d : SpecDriver) (ext : ModuleExports) (field : String) (ft : Signature),
        d.resolve_func ext "spectest" field ft = d.spec_module.resolve_func field ft) ∧
    (∀ (d : SpecDriver) (ext : ModuleExports) (mn field : String) (ft : Signature)
        (m : ModuleRef), mn ≠ "spectest" → d.instances mn = some m →
        d.resolve_func ext mn field ft = ext.resolve_func m field ft) ∧
    (∀ (d : SpecDriver) (ext : ModuleExports) (mn field : String) (ft : Signature),
        mn ≠ "spectest" → d.instances mn = none →
        d.resolve_func ext mn field ft =
          Except.error (InterpreterError.Instantiation ("Module not registered " ++ mn))) ∧
    (∀ (d : SpecDriver) (ext : ModuleExports) (field : String) (gt : GlobalDescriptor),
        d.resolve_global ext "spectest" field gt = d.spec_module.resolve_global field gt) ∧
    (∀ (d : SpecDriver) (ext : ModuleExports) (mn field : String) (gt : GlobalDescriptor)
        (m : ModuleRef), mn ≠ "spectest" → d.instances mn = some m →
        d.resolve_global ext mn field gt = ext.resolve_global m field gt) ∧
    (∀ (d : SpecDriver) (ext : ModuleExports) (mn field : String) (gt : GlobalDescriptor),
        mn ≠ "spectest" → d.instances mn = none →
        d.resolve_global ext mn field gt =
          Except.error (InterpreterError.Instantiation ("Module not registered " ++ mn))) ∧
    (∀ (d : SpecDriver) (ext : ModuleExports) (field : String) (mt : MemoryDescriptor),
        d.resolve_memory ext "spectest" field mt = d.spec_module.resolve_memory field mt) ∧
    (∀ (d : SpecDriver) (ext : ModuleExports) (mn field : String) (mt : MemoryDescriptor)
        (m : ModuleRef), mn ≠ "spectest" → d.instances mn = some m →
        d.resolve_memory ext mn field mt = ext.resolve_memory m field mt) ∧
    (∀ (d : SpecDriver) (ext : ModuleExports) (mn field : String) (mt : MemoryDescriptor),
        mn ≠ "spectest" → d.instances mn = none →
        d.resolve_memory ext mn field mt =
          Except.error (InterpreterError.Instantiation ("Module not registered " ++ mn))) ∧
    (∀ (d : SpecDriver) (ext : ModuleExports) (field : String) (tt : TableDescriptor),
        d.resolve_table ext "spectest" field tt = d.spec_module.resolve_table field tt) ∧
    (∀ (d : SpecDriver) (ext : ModuleExports) (mn field : String) (tt : TableDescriptor)
        (m : ModuleRef), mn ≠ "spectest" → d.instances mn = some m →
        d.resolve_table ext mn field tt = ext.resolve_table m field tt) ∧
    (∀ (d : SpecDriver) (ext : ModuleExports) (mn field : String) (tt : TableDescriptor),
        mn ≠ "spectest" → d.instances mn = none →
        d.resolve_table ext mn field tt =
          Except.error (InterpreterError.Instantiation ("Module not registered " ++ mn))) := by
  refine ⟨?_, ?_, ?_, ?_, ?_, ?_, ?_, ?_, ?_, ?_, ?_, ?_⟩
  · intro d ext field ft
    simp [SpecDriver.resolve_func]
  · intro d ext mn field ft m hne hm
    simp [SpecDriver.resolve_func, SpecDriver.module, hne, hm]
  · intro d ext mn field ft hne hm
    simp [SpecDriver.resolve_func, SpecDriver.module, hne, hm]
  · intro d ext field gt
    simp [SpecDriver.resolve_global]
  · intro d ext mn field gt m hne hm
    simp [SpecDriver.resolve_global, SpecDriver.module, hne, hm]
  · intro d ext mn field gt hne hm
    simp [SpecDriver.resolve_global, SpecDriver.module, hne, hm]
  · intro d ext field mt
    simp [SpecDriver.resolve_memory]
  · intro d ext mn field mt m hne hm
    simp [SpecDriver.resolve_memory, SpecDriver.module, hne, hm]
  · intro d ext mn field mt hne hm
    simp [SpecDriver.resolve_memory, SpecDriver.module, hne, hm]
  · intro d ext field tt
    simp [SpecDriver.resolve_table]
  · intro d ext mn field tt m hne hm
    simp [SpecDriver.resolve_table, SpecDriver.module, hne, hm]
  · intro d ext mn field tt hne hm
    simp [SpecDriver.resolve_table, SpecDriver.module, hne, hm]

/-- Concrete instances of claim C1 on a registry holding `m ↦ 7`: the
`spectest` query goes to the host environment, a query for `m` is
delegated to module 7's exports, and a query for the absent name `ghost`
propagates the lookup error. -/
theorem specDriver_import_resolution_witness :
    ((SpecDriver.new.add_module (some "m") 7).resolve_func sampleExports "spectest"
        "print" { params := [], return_type := none } =
      (SpecDriver.new.add_module (some "m") 7).spec_module.resolve_func "print"
        { params := [], return_type := none }) ∧
    ((SpecDriver.new.add_module (some "m") 7).resolve_func sampleExports "m" "f"
        { params := [], return_type := none } =
      sampleExports.resolve_func 7 "f" { params := [], return_type := none }) ∧
    ((SpecDriver.new.add_module (some "m") 7).resolve_func sampleExports "ghost" "f"
        { params := [], return_type := none } =
      Except.error (InterpreterError.Instantiation ("Module not registered " ++ "ghost"))) ∧
    ((SpecDriver.new.add_module (some "m") 7).resolve_global sampleExports "m" "g"
        { value_type := ValueType.I32, mutable := false } =
      sampleExports.resolve_global 7 "g" { value_type := ValueType.I32, mutable := false }) := by
  refine ⟨?_, ?_, ?_, ?_⟩
  · exact specDriver_import_resolution.1 (SpecDriver.new.add_module (some "m") 7)
      sampleExports "print" { params := [], return_type := none }
  · exact specDriver_import_resolution.2.1 (SpecDriver.new.add_module (some "m") 7)
      sampleExports "m" "f" { params := [], return_type := none } 7
      (by decide) (by decide)
  · exact specDriver_import_resolution.2.2.1 (SpecDriver.new.add_module (some "m") 7)
      sampleExports "ghost" "f" { params := [], return_type := none }
      (by decide) (by decide)
  · exact specDriver_import_resolution.2.2.2.2.1 (SpecDriver.new.add_module (some "m") 7)
      sampleExports "m" "g" { value_type := ValueType.I32, mutable := false } 7
      (by decide) (by decide)

/-- Claim C4 counterexample: on the driver holding `a ↦ 1` with module 2
as the last-loaded module, `register(Some "a", "alias")` succeeds but sets
the last-loaded slot to 1 — `register` calls `add_module`, which always
overwrites the slot — so the slot is not left unchanged as the claim
states. -/
theorem specDriver_register_changes_last_module :
    ((SpecDriver.new.add_module (some "a") 1).add_module none 2).last_module = some 2 ∧
    (((SpecDriver.new.add_module (some "a") 1).add_module none 2).register
        (some "a") "alias").2 = Except.ok () ∧
    (((SpecDriver.new.add_module (some "a") 1).add_module none 2).register
        (some "a") "alias").1.last_module = some 1 ∧
    (((SpecDriver.new.add_module (some "a") 1).add_module none 2).register
        (some "a") "alias").1.last_module ≠
      ((SpecDriver.new.add_module (some "a") 1).add_module none 2).last_module := by
  refine ⟨rfl, rfl, rfl, by decide⟩

/-- Claim C4 (amended): when the source of `register` resolves to handle
`m`, the call succeeds, maps the alias to `m` in the registry — so a
subsequent lookup of the alias returns the same module instance — leaves
every other registry entry unchanged, and sets the last-loaded slot to
`m` (through `add_module`; it is not left unchanged in general). -/
theorem specDriver_register_aliases :
    ∀ (d : SpecDriver) (name : Option String) (as_name : String) (m : ModuleRef),
      d.module_or_last name = Except.ok m →
      (d.register name as_name).2 = Except.ok () ∧
      (d.register name as_name).1.instances as_name = some m ∧
      (d.register name as_name).1.module as_name = Except.ok m ∧
      (d.register name as_name).1.last_module = some m ∧
      (∀ k, k ≠ as_name → (d.register name as_name).1.instances k = d.instances k) := by
  intro d name as_name m h
  refine ⟨?_, ?_, ?_, ?_, ?_⟩
  · simp [SpecDriver.register, h]
  · simp [SpecDriver.register, h, SpecDriver.add_module]
  · simp [SpecDriver.register, h, SpecDriver.add_module, SpecDriver.module]
  · simp [SpecDriver.register, h, SpecDriver.add_module]
  · intro k hk
    simp [SpecDriver.register, h, SpecDriver.add_module, hk]

/-- Concrete instance of the amended claim C4: after `m ↦ 5`,
`register(Some "m", "alias")` succeeds, `lookup("alias")` returns 5, the
last-loaded slot holds 5, and the entry for `m` is untouched. -/
theorem specDriver_register_aliases_witness :
    ((SpecDriver.new.add_module (some "m") 5).register (some "m") "alias").2 =
      Except.ok () ∧
    ((SpecDriver.new.add_module (some "m") 5).register (some "m") "alias").1.module
      "alias" = Except.ok 5 ∧
    ((SpecDriver.new.add_module (some "m") 5).register (some "m") "alias").1.last_module =
      some 5 ∧
    ((SpecDriver.new.add_module (some "m") 5).register (some "m") "alias").1.instances
      "m" = (SpecDriver.new.add_module (some "m") 5).instances "m" := by
  have h := specDriver_register_aliases (SpecDriver.new.add_module (some "m") 5)
    (some "m") "alias" 5 rfl
  exact ⟨h.1, h.2.2.1, h.2.2.2.1, h.2.2.2.2 "m" (by decide)⟩

/-- Claim C5: every successful `add_module` or `register` sets the
last-loaded slot to the handle involved, with or without a name; names are
unique keys and a later `add_module` under an existing name silently
overwrites the prior mapping (no duplicate check — last writer wins),
leaving unrelated names untouched. -/
theorem specDriver_registry_invariants :
    (∀ (d : SpecDriver) (name : Option String) (m : ModuleRef),
        (d.add_module name m).last_module = some m) ∧
    (∀ (d : SpecDriver) (name : Option String) (as_name : String) (m : ModuleRef),
        d.module_or_last name = Except.ok m →
        (d.register name as_name).2 = Except.ok () ∧
        (d.register name as_name).1.last_module = some m) ∧
    (∀ (d : SpecDriver) (n : String) (m : ModuleRef),
        (d.add_module (some n) m).instances n = some m) ∧
    (∀ (d : SpecDriver) (n k : String) (m : ModuleRef), k ≠ n →
        (d.add_module (some n) m).instances k = d.instances k) ∧
    (∀ (d : SpecDriver) (n : String) (m1 m2 : ModuleRef),
        ((d.add_module (some n) m1).add_module (some n) m2).instances n = some m2) := by
  refine ⟨?_, ?_, ?_, ?_, ?_⟩
  · intro d name m
    cases name <;> simp [SpecDriver.add_module]
  · intro d name as_name m h
    constructor
    · simp [SpecDriver.register, h]
    · simp [SpecDriver.register, h, SpecDriver.add_module]
  · intro d n m
    simp [SpecDriver.add_module]
  · intro d n k m hk
    simp [SpecDriver.add_module, hk]
  · intro d n m1 m2
    simp [SpecDriver.add_module]

/-- Concrete instance of claim C5: registering an alias for the
anonymously loaded module 3 succeeds and (re)sets the last-loaded slot to
3. -/
theorem specDriver_registry_invariants_witness :
    ((SpecDriver.new.add_module none 3).register none "named").2 = Except.ok () ∧
    ((SpecDriver.new.add_module none 3).register none "named").1.last_module = some 3 := by
  exact specDriver_registry_invariants.2.1 (SpecDriver.new.add_module none 3)
    none "named" 3 rfl

/-- Claim C6 counterexample: at the absent name `m` on a fresh driver the
lookup error carries the literal message "Module not registered m" — not
"module not registered: `m`" — and the empty-registry error carries
"No modules registered" — not "no modules registered". -/
theorem specDriver_lookup_messages_counterexample :
    SpecDriver.new.module "m" =
      Except.error (InterpreterError.Instantiation ("Module not registered " ++ "m")) ∧
    "Module not registered " ++ "m" ≠ "module not registered: `m`" ∧
    SpecDriver.new.module_or_last none =
      Except.error (InterpreterError.Instantiation "No modules registered") ∧
    "No modules registered" ≠ "no modules registered" := by
  exact ⟨rfl, by decide, rfl, by decide⟩

/-- Claim C6 (amended): `module_or_last` with a name behaves exactly as
`module` — the registry handle for that exact name, or an `Instantiation`
error with the literal message "Module not registered <name>" when the
name is absent; `module_or_last` with no name returns the last-loaded
handle, or fails with an `Instantiation` error with the literal message
"No modules registered" when no module has ever been loaded — in
particular the fresh driver's last-loaded slot is empty. -/
theorem specDriver_lookup_spec :
    (∀ (d : SpecDriver) (name : String),
        d.module_or_last (some name) = d.module name) ∧
    (∀ (d : SpecDriver) (name : String) (m : ModuleRef),
        d.instances name = some m → d.module name = Except.ok m) ∧
    (∀ (d : SpecDriver) (name : String),
        d.instances name = none →
        d.module name = Except.error (InterpreterError.Instantiation
          ("Module not registered " ++ name))) ∧
    (∀ (d : SpecDriver) (m : ModuleRef),
        d.last_module = some m → d.module_or_last none = Except.ok m) ∧
    (∀ d : SpecDriver, d.last_module = none →
        d.module_or_last none = Except.error
          (InterpreterError.Instantiation "No modules registered")) ∧
    SpecDriver.new.last_module = none := by
  refine ⟨?_, ?_, ?_, ?_, ?_, rfl⟩
  · intro d name
    simp [SpecDriver.module_or_last]
  · intro d name m h
    simp [SpecDriver.module, h]
  · intro d name h
    simp [SpecDriver.module, h]
  · intro d m h
    simp [SpecDriver.module_or_last, h]
  · intro d h
    simp [SpecDriver.module_or_last, h]

/-- Concrete instances of the amended claim C6: on the driver holding
`m ↦ 4`, lookup of `m` succeeds, lookup of the absent `ghost` fails with
its name in the message, and the fresh driver's nameless lookup fails with
the empty-registry message. -/
theorem specDriver_lookup_spec_witness :
    (SpecDriver.new.add_module (some "m") 4).module "m" = Except.ok 4 ∧
    (SpecDriver.new.add_module (some "m") 4).module "ghost" =
      Except.error (InterpreterError.Instantiation ("Module not registered " ++ "ghost")) ∧
    SpecDriver.new.module_or_last none =
      Except.error (InterpreterError.Instantiation "No modules registered") := by
  refine ⟨?_, ?_, ?_⟩
  · exact specDriver_lookup_spec.2.1 (SpecDriver.new.add_module (some "m") 4) "m" 4
      (by decide)
  · exact specDriver_lookup_spec.2.2.1 (SpecDriver.new.add_module (some "m") 4) "ghost"
      (by decide)
  · exact specDriver_lookup_spec.2.2.2.2.1 SpecDriver.new rfl

/-- Claim C7 counterexample: on a fresh driver `register(Some "src",
"dst")` fails with the literal message "No such modules registered" — not
"no such module registered" as the claim states. -/
theorem specDriver_register_failure_counterexample :
    (SpecDriver.new.register (some "src") "dst").2 =
      Except.error (InterpreterError.Instantiation "No such modules registered") ∧
    "No such modules registered" ≠ "no such module registered" := by
  exact ⟨rfl, by decide⟩

/-- Claim C7 (amended): whenever resolving the source of `register`
fails, `register` returns an `Instantiation` error with the fixed literal
message "No such modules registered", whatever the underlying lookup
error was (the cause is discarded), and the driver — registry mapping and
last-loaded slot — comes back unchanged. -/
theorem specDriver_register_failure_spec :
    ∀ (d : SpecDriver) (name : Option String) (as_name : String) (e : InterpreterError),
      d.module_or_last name = Except.error e →
      d.register name as_name =
        (d, Except.error (InterpreterError.Instantiation "No such modules registered")) := by
  intro d name as_name e h
  simp [SpecDriver.register, h]

/-- Concrete instance of the amended claim C7: on a fresh driver, where
the nameless lookup fails with "No modules registered", `register` fails
with the distinct generic message and returns the driver unchanged. -/
theorem specDriver_register_failure_spec_witness :
    SpecDriver.new.register none "x" =
      (SpecDriver.new,
        Except.error (InterpreterError.Instantiation "No such modules registered")) := by
  exact specDriver_register_failure_spec SpecDriver.new none "x"
    (InterpreterError.Instantiation "No modules registered") rfl


